import Mathlib

/-!
Verification of the fMRIPrep BOLD output/resampling workflow builders
(`fmriprep/workflows/bold/outputs.py` and
`fmriprep/workflows/bold/resampling.py`).

The development has two parts:

* a shallow embedding of the pure function `prepare_timing_parameters`,
  with BIDS timing metadata modelled as a record of optional rational
  values (the Python floats are modelled exactly by `ℚ`; `np.isclose`
  and `np.round` are reproduced with their documented default
  semantics);
* a shallow embedding of the workflow graphs built by the
  `init_*_wf` constructors: each constructor becomes a function from
  its build-time feature flags to a `Graph`, a list of node names plus
  a list of port-to-port connections, transcribed from the
  `workflow.connect` calls in the source.
-/

/-! ## Rational helpers mirroring the numpy calls in the source -/

/-- Round to the nearest integer, ties to even: the rounding mode of
`np.round`. -/
def roundHalfEven (q : ℚ) : ℤ :=
  let f : ℤ := ⌊q⌋
  let r : ℚ := q - (f : ℚ)
  if r < 1 / 2 then f
  else if 1 / 2 < r then f + 1
  else if f % 2 = 0 then f else f + 1

/-- `np.round(q, 3)`: round to three decimal places, ties to even. -/
def np_round3 (q : ℚ) : ℚ := (roundHalfEven (q * 1000) : ℚ) / 1000

/-- `np.isclose(a, b)` with the default tolerances
`rtol = 1e-5`, `atol = 1e-8`: `|a - b| ≤ atol + rtol * |b|`. -/
def np_isclose (a b : ℚ) : Bool :=
  decide (|a - b| ≤ 1 / 100000000 + |b| / 100000)

/-! ## Data model for `prepare_timing_parameters` -/

/-- The process-wide configuration read by `prepare_timing_parameters`:
`config.workflow.ignore` (a list of step names; the function only tests
membership of `"slicetiming"`) and `config.workflow.slice_time_ref`. -/
structure WorkflowConfig where
  ignore : List String
  slice_time_ref : ℚ
deriving DecidableEq

/-- The input metadata mapping, restricted to the five keys that
`prepare_timing_parameters` reads; a `none` field models an absent key. -/
structure Metadata where
  RepetitionTime : Option ℚ := none
  VolumeTiming : Option (List ℚ) := none
  DelayTime : Option ℚ := none
  AcquisitionDuration : Option ℚ := none
  SliceTiming : Option (List ℚ) := none
deriving DecidableEq

/-- The output mapping of `prepare_timing_parameters`.  A `SliceTiming`
field is kept in the model so that the source's `pop` (which removes the
key from the output dictionary in every case) is visible as the field
being `none`. -/
structure TimingParameters where
  RepetitionTime : Option ℚ := none
  VolumeTiming : Option (List ℚ) := none
  DelayTime : Option ℚ := none
  AcquisitionDuration : Option ℚ := none
  SliceTiming : Option (List ℚ) := none
  SliceTimingCorrected : Bool := false
  StartTime : Option ℚ := none
deriving DecidableEq

/-- `sorted(slice_timing)`: the ascending sort used by the source. -/
def sortedST (slice_timing : List ℚ) : List ℚ :=
  List.insertionSort (· ≤ ·) slice_timing

/-- `TA = st[-1] + (st[1] - st[0])` over `st = sorted(slice_timing)`:
final slice onset plus the slice duration estimated from the two
smallest onsets. -/
def TA_of (slice_timing : List ℚ) : ℚ :=
  let st := sortedST slice_timing
  st.getD (st.length - 1) 0 + (st.getD 1 0 - st.getD 0 0)

/-- `tzero = np.round(first + frac * (last - first), 3)` over the sorted
slice timing, the `StartTime` computed when slice-timing correction
runs. -/
def tzero_of (slice_timing : List ℚ) (frac : ℚ) : ℚ :=
  let st := sortedST slice_timing
  np_round3 (st.getD 0 0 + frac * (st.getD (st.length - 1) 0 - st.getD 0 0))

/-- Lines 124-131 of `outputs.py`: once `TA` is known, constant-TR
paradigms (a `RepetitionTime` key is present) receive a `DelayTime`
whenever `TA` is neither `np.isclose` to `TR` nor `≥ TR`; otherwise
variable-TR paradigms (a `VolumeTiming` key is present) receive
`AcquisitionDuration = TA`. -/
def derive_duration (TA : ℚ) (tp0 : TimingParameters) : TimingParameters :=
  match tp0.RepetitionTime with
  | some TR =>
    if !np_isclose TR TA && decide (TA < TR) then
      { tp0 with DelayTime := some (TR - TA) }
    else tp0
  | none =>
    match tp0.VolumeTiming with
    | some _ => { tp0 with AcquisitionDuration := some TA }
    | none => tp0

/-- Shallow embedding of `prepare_timing_parameters` from
`fmriprep/workflows/bold/outputs.py`.

The source copies the five recognised keys into `timing_parameters`,
pops `SliceTiming` (default `[]`), sets
`SliceTimingCorrected = len(slice_timing) > 1 and 'slicetiming' not in
config.workflow.ignore`, and, when `slice_timing` has more than one
entry, derives `DelayTime` (constant-TR paradigms) or
`AcquisitionDuration` (variable-TR paradigms) from
`TA = st[-1] + (st[1] - st[0])` via `derive_duration`, and finally
`StartTime` when slice-timing correction is actually applied. -/
def prepare_timing_parameters (cfg : WorkflowConfig) (metadata : Metadata) :
    TimingParameters :=
  let copied : TimingParameters :=
    { RepetitionTime := metadata.RepetitionTime
      VolumeTiming := metadata.VolumeTiming
      DelayTime := metadata.DelayTime
      AcquisitionDuration := metadata.AcquisitionDuration
      SliceTiming := metadata.SliceTiming }
  let slice_timing := copied.SliceTiming.getD []
  let popped : TimingParameters := { copied with SliceTiming := none }
  let run_stc :=
    decide (1 < slice_timing.length) && !(cfg.ignore.contains "slicetiming")
  let tp0 : TimingParameters := { popped with SliceTimingCorrected := run_stc }
  if 1 < slice_timing.length then
    let tp1 := derive_duration (TA_of slice_timing) tp0
    if run_stc then
      { tp1 with StartTime := some (tzero_of slice_timing cfg.slice_time_ref) }
    else tp1
  else tp0

example :
    prepare_timing_parameters ⟨[], 1 / 2⟩ { RepetitionTime := some 2 } =
      { RepetitionTime := some 2, SliceTimingCorrected := false } := by
  norm_num [prepare_timing_parameters, derive_duration, TA_of, tzero_of, sortedST, np_isclose,
    np_round3, roundHalfEven, List.insertionSort, List.orderedInsert,
    abs_of_nonneg, abs_of_nonpos, TimingParameters.mk.injEq]

example :
    prepare_timing_parameters ⟨[], 1 / 2⟩
        { RepetitionTime := some 2, DelayTime := some (1 / 2) } =
      { RepetitionTime := some 2, DelayTime := some (1 / 2),
        SliceTimingCorrected := false } := by
  norm_num [prepare_timing_parameters, derive_duration, TA_of, tzero_of, sortedST, np_isclose,
    np_round3, roundHalfEven, List.insertionSort, List.orderedInsert,
    abs_of_nonneg, abs_of_nonpos, TimingParameters.mk.injEq]

example :
    prepare_timing_parameters ⟨[], 1 / 2⟩
        { RepetitionTime := some 2,
          SliceTiming := some [0, 1 / 5, 2 / 5, 3 / 5] } =
      { RepetitionTime := some 2, SliceTimingCorrected := true,
        DelayTime := some (6 / 5), StartTime := some (3 / 10) } := by
  norm_num [prepare_timing_parameters, derive_duration, TA_of, tzero_of, sortedST, np_isclose,
    np_round3, roundHalfEven, List.insertionSort, List.orderedInsert,
    abs_of_nonneg, abs_of_nonpos, TimingParameters.mk.injEq]

example :
    prepare_timing_parameters ⟨[], 1 / 2⟩
        { VolumeTiming := some [0, 1, 2, 5, 6, 7],
          SliceTiming := some [0, 1 / 5, 2 / 5, 3 / 5, 4 / 5] } =
      { VolumeTiming := some [0, 1, 2, 5, 6, 7], SliceTimingCorrected := true,
        AcquisitionDuration := some 1, StartTime := some (2 / 5) } := by
  norm_num [prepare_timing_parameters, derive_duration, TA_of, tzero_of, sortedST, np_isclose,
    np_round3, roundHalfEven, List.insertionSort, List.orderedInsert,
    abs_of_nonneg, abs_of_nonpos, TimingParameters.mk.injEq]

example :
    prepare_timing_parameters ⟨["slicetiming"], 1 / 2⟩
        { RepetitionTime := some 2,
          SliceTiming := some [0, 1 / 5, 2 / 5, 3 / 5] } =
      { RepetitionTime := some 2, SliceTimingCorrected := false,
        DelayTime := some (6 / 5) } := by
  norm_num [prepare_timing_parameters, derive_duration, TA_of, tzero_of, sortedST, np_isclose,
    np_round3, roundHalfEven, List.insertionSort, List.orderedInsert,
    abs_of_nonneg, abs_of_nonpos, TimingParameters.mk.injEq]

example :
    prepare_timing_parameters ⟨[], 1 / 2⟩
        { RepetitionTime := some 2, SliceTiming := some [] } =
      { RepetitionTime := some 2, SliceTimingCorrected := false } := by
  norm_num [prepare_timing_parameters, derive_duration, TA_of, tzero_of, sortedST, np_isclose,
    np_round3, roundHalfEven, List.insertionSort, List.orderedInsert,
    abs_of_nonneg, abs_of_nonpos, TimingParameters.mk.injEq]

/-! ## Facts about the ascending sort used by the source -/

theorem sortedST_perm (l : List ℚ) : List.Perm (sortedST l) l :=
  List.perm_insertionSort _ l

theorem sortedST_sorted (l : List ℚ) : (sortedST l).Sorted (· ≤ ·) :=
  List.sorted_insertionSort _ l

theorem sortedST_length (l : List ℚ) : (sortedST l).length = l.length :=
  (sortedST_perm l).length_eq

theorem sorted_head_le {l : List ℚ} (h : l.Sorted (· ≤ ·)) :
    ∀ x ∈ l, l.getD 0 0 ≤ x := by
  cases l with
  | nil => intro x hx; cases hx
  | cons a t =>
    intro x hx
    rw [List.getD_cons_zero]
    rcases List.mem_cons.mp hx with rfl | hx
    · exact le_refl x
    · exact List.rel_of_sorted_cons h x hx

theorem sorted_le_last {l : List ℚ} (h : l.Sorted (· ≤ ·)) :
    ∀ x ∈ l, x ≤ l.getD (l.length - 1) 0 := by
  induction l with
  | nil => intro x hx; cases hx
  | cons a t ih =>
    cases t with
    | nil =>
      intro x hx
      rcases List.mem_cons.mp hx with rfl | hx
      · exact le_of_eq List.getD_cons_zero.symm
      · cases hx
    | cons b t2 =>
      intro x hx
      have hlt2 : (b :: t2).length - 1 < (b :: t2).length :=
        Nat.sub_lt (by simp) Nat.one_pos
      have hstep : (a :: b :: t2).getD ((a :: b :: t2).length - 1) 0 =
          (b :: t2).getD ((b :: t2).length - 1) 0 := by
        simp [List.getD_cons_succ]
      have hmem : (b :: t2).getD ((b :: t2).length - 1) 0 ∈ b :: t2 := by
        rw [List.getD_eq_getElem _ _ hlt2]
        exact List.getElem_mem hlt2
      rw [hstep]
      rcases List.mem_cons.mp hx with rfl | hx
      · exact List.rel_of_sorted_cons h _ hmem
      · exact ih h.of_cons x hx

/-- The head of the sorted slice timing is a minimum of the input list,
its final element a maximum. -/
theorem sortedST_min_max (l : List ℚ) (hne : l ≠ []) :
    ((sortedST l).getD 0 0 ∈ l ∧ ∀ x ∈ l, (sortedST l).getD 0 0 ≤ x) ∧
    ((sortedST l).getD ((sortedST l).length - 1) 0 ∈ l ∧
      ∀ x ∈ l, x ≤ (sortedST l).getD ((sortedST l).length - 1) 0) := by
  have hlen : 0 < (sortedST l).length := by
    rw [sortedST_length]; exact List.length_pos.mpr hne
  have hlast : (sortedST l).length - 1 < (sortedST l).length := by omega
  have hmem0 : (sortedST l).getD 0 0 ∈ sortedST l := by
    rw [List.getD_eq_getElem _ _ hlen]; exact List.getElem_mem hlen
  have hmeml : (sortedST l).getD ((sortedST l).length - 1) 0 ∈ sortedST l := by
    rw [List.getD_eq_getElem _ _ hlast]; exact List.getElem_mem hlast
  refine ⟨⟨(sortedST_perm l).mem_iff.mp hmem0, ?_⟩,
    ⟨(sortedST_perm l).mem_iff.mp hmeml, ?_⟩⟩
  · intro x hx
    exact sorted_head_le (sortedST_sorted l) x ((sortedST_perm l).mem_iff.mpr hx)
  · intro x hx
    exact sorted_le_last (sortedST_sorted l) x ((sortedST_perm l).mem_iff.mpr hx)

/-! ## Shape lemmas for `prepare_timing_parameters` -/

/-- With at most one slice onset, the function only strips `SliceTiming`
and records that no correction was applied. -/
theorem prepare_short (cfg : WorkflowConfig) (md : Metadata)
    (h : ¬ 1 < (md.SliceTiming.getD []).length) :
    prepare_timing_parameters cfg md =
      { RepetitionTime := md.RepetitionTime, VolumeTiming := md.VolumeTiming,
        DelayTime := md.DelayTime, AcquisitionDuration := md.AcquisitionDuration,
        SliceTiming := none, SliceTimingCorrected := false,
        StartTime := none } := by
  simp only [prepare_timing_parameters]
  simp [h]

/-- With more than one slice onset and `"slicetiming"` not ignored, the
function derives the duration field and sets `StartTime`. -/
theorem prepare_long_stc (cfg : WorkflowConfig) (md : Metadata)
    (h : 1 < (md.SliceTiming.getD []).length)
    (hstc : "slicetiming" ∉ cfg.ignore) :
    prepare_timing_parameters cfg md =
      { derive_duration (TA_of (md.SliceTiming.getD []))
          { RepetitionTime := md.RepetitionTime, VolumeTiming := md.VolumeTiming,
            DelayTime := md.DelayTime,
            AcquisitionDuration := md.AcquisitionDuration,
            SliceTiming := none, SliceTimingCorrected := true,
            StartTime := none } with
        StartTime :=
          some (tzero_of (md.SliceTiming.getD []) cfg.slice_time_ref) } := by
  simp only [prepare_timing_parameters]
  simp [h, hstc]

/-- With more than one slice onset but `"slicetiming"` ignored, the
function derives the duration field and leaves `StartTime` absent. -/
theorem prepare_long_nostc (cfg : WorkflowConfig) (md : Metadata)
    (h : 1 < (md.SliceTiming.getD []).length)
    (hstc : "slicetiming" ∈ cfg.ignore) :
    prepare_timing_parameters cfg md =
      derive_duration (TA_of (md.SliceTiming.getD []))
        { RepetitionTime := md.RepetitionTime, VolumeTiming := md.VolumeTiming,
          DelayTime := md.DelayTime,
          AcquisitionDuration := md.AcquisitionDuration,
          SliceTiming := none, SliceTimingCorrected := false,
          StartTime := none } := by
  simp only [prepare_timing_parameters]
  simp [h, hstc]

/-- Case analysis for `derive_duration`: it leaves the record unchanged,
overwrites `DelayTime` (constant-TR case), or overwrites
`AcquisitionDuration` (variable-TR case). -/
theorem derive_duration_cases (TA : ℚ) (tp0 : TimingParameters) :
    derive_duration TA tp0 = tp0 ∨
    (∃ TR, tp0.RepetitionTime = some TR ∧ np_isclose TR TA = false ∧ TA < TR ∧
      derive_duration TA tp0 = { tp0 with DelayTime := some (TR - TA) }) ∨
    (tp0.RepetitionTime = none ∧ (∃ vt, tp0.VolumeTiming = some vt) ∧
      derive_duration TA tp0 = { tp0 with AcquisitionDuration := some TA }) := by
  unfold derive_duration
  cases htr : tp0.RepetitionTime with
  | some TR =>
    by_cases hc : (!np_isclose TR TA && decide (TA < TR)) = true
    · right; left
      have hc2 := hc
      simp only [Bool.and_eq_true, Bool.not_eq_true, Bool.not_eq_true',
        decide_eq_true_eq] at hc2
      exact ⟨TR, rfl, hc2.1, hc2.2, by simp [hc]⟩
    · left; simp [hc]
  | none =>
    cases hvt : tp0.VolumeTiming with
    | some vt => right; right; exact ⟨rfl, ⟨vt, rfl⟩, by simp⟩
    | none => left; simp

/-- `derive_duration` in the constant-TR case with a sparse paradigm. -/
theorem derive_duration_delay (TA : ℚ) (tp0 : TimingParameters) (TR : ℚ)
    (htr : tp0.RepetitionTime = some TR) (hcl : np_isclose TR TA = false)
    (hlt : TA < TR) :
    derive_duration TA tp0 = { tp0 with DelayTime := some (TR - TA) } := by
  unfold derive_duration
  rw [htr]
  simp [hcl, hlt]

/-- `derive_duration` in the variable-TR case. -/
theorem derive_duration_acq (TA : ℚ) (tp0 : TimingParameters) (vt : List ℚ)
    (htr : tp0.RepetitionTime = none) (hvt : tp0.VolumeTiming = some vt) :
    derive_duration TA tp0 = { tp0 with AcquisitionDuration := some TA } := by
  unfold derive_duration
  rw [htr, hvt]

/-- `derive_duration` never sets `AcquisitionDuration` when a
`RepetitionTime` key is present. -/
theorem derive_duration_acq_of_TR (TA : ℚ) (tp0 : TimingParameters) (TR : ℚ)
    (htr : tp0.RepetitionTime = some TR) :
    (derive_duration TA tp0).AcquisitionDuration = tp0.AcquisitionDuration := by
  unfold derive_duration
  rw [htr]
  by_cases hc : (!np_isclose TR TA && decide (TA < TR)) = true <;> simp [hc]

theorem derive_duration_RT (TA : ℚ) (tp0 : TimingParameters) :
    (derive_duration TA tp0).RepetitionTime = tp0.RepetitionTime := by
  rcases derive_duration_cases TA tp0 with he | ⟨_, _, _, _, he⟩ | ⟨_, _, he⟩ <;>
    rw [he]

theorem derive_duration_VT (TA : ℚ) (tp0 : TimingParameters) :
    (derive_duration TA tp0).VolumeTiming = tp0.VolumeTiming := by
  rcases derive_duration_cases TA tp0 with he | ⟨_, _, _, _, he⟩ | ⟨_, _, he⟩ <;>
    rw [he]

theorem derive_duration_ST (TA : ℚ) (tp0 : TimingParameters) :
    (derive_duration TA tp0).SliceTiming = tp0.SliceTiming := by
  rcases derive_duration_cases TA tp0 with he | ⟨_, _, _, _, he⟩ | ⟨_, _, he⟩ <;>
    rw [he]

theorem derive_duration_STC (TA : ℚ) (tp0 : TimingParameters) :
    (derive_duration TA tp0).SliceTimingCorrected = tp0.SliceTimingCorrected := by
  rcases derive_duration_cases TA tp0 with he | ⟨_, _, _, _, he⟩ | ⟨_, _, he⟩ <;>
    rw [he]

theorem derive_duration_StartTime (TA : ℚ) (tp0 : TimingParameters) :
    (derive_duration TA tp0).StartTime = tp0.StartTime := by
  rcases derive_duration_cases TA tp0 with he | ⟨_, _, _, _, he⟩ | ⟨_, _, he⟩ <;>
    rw [he]

/-- The two derivations of `derive_duration` are mutually exclusive and
only fire in their own paradigm. -/
theorem derive_duration_excl (TA : ℚ) (tp0 : TimingParameters) :
    (tp0.RepetitionTime.isSome = true →
      (derive_duration TA tp0).AcquisitionDuration = tp0.AcquisitionDuration) ∧
    ((derive_duration TA tp0).DelayTime ≠ tp0.DelayTime →
      (derive_duration TA tp0).AcquisitionDuration = tp0.AcquisitionDuration) ∧
    ((derive_duration TA tp0).AcquisitionDuration ≠ tp0.AcquisitionDuration →
      (derive_duration TA tp0).DelayTime = tp0.DelayTime) := by
  rcases derive_duration_cases TA tp0 with he | ⟨TR, htr, _, _, he⟩ |
    ⟨htr, ⟨vt, hvt⟩, he⟩ <;> rw [he]
  · exact ⟨fun _ => rfl, fun _ => rfl, fun _ => rfl⟩
  · exact ⟨fun _ => by simp, fun _ => by simp, fun ha => absurd (by simp) ha⟩
  · refine ⟨fun hs => ?_, fun hd => absurd (by simp) hd, fun _ => by simp⟩
    rw [htr] at hs
    cases hs

/-- Possible outcomes for the two duration fields. -/
theorem derive_duration_outcomes (TA : ℚ) (tp0 : TimingParameters) :
    ((derive_duration TA tp0).DelayTime = tp0.DelayTime ∨
      ∃ TR, tp0.RepetitionTime = some TR ∧
        (derive_duration TA tp0).DelayTime = some (TR - TA)) ∧
    ((derive_duration TA tp0).AcquisitionDuration = tp0.AcquisitionDuration ∨
      (tp0.RepetitionTime = none ∧
        (derive_duration TA tp0).AcquisitionDuration = some TA)) := by
  rcases derive_duration_cases TA tp0 with he | ⟨TR, htr, _, _, he⟩ |
    ⟨htr, _, he⟩ <;> rw [he]
  · exact ⟨Or.inl rfl, Or.inl rfl⟩
  · exact ⟨Or.inr ⟨TR, htr, by simp⟩, Or.inl (by simp)⟩
  · exact ⟨Or.inl (by simp), Or.inr ⟨htr, by simp⟩⟩

/-! ## Claim theorems for `prepare_timing_parameters` -/

/-- C1: whenever `SliceTiming` has more than one entry (whether or not
slice-timing correction is skipped), `TA` is computed over the sorted
sequence as the last onset plus the spacing of its two smallest values;
if a `RepetitionTime` `TR` is present in the input and `TA` is neither
`np.isclose` to `TR` nor `≥ TR`, the output gains
`DelayTime = TR - TA`; if instead `RepetitionTime` is absent and
`VolumeTiming` is present, the output gains
`AcquisitionDuration = TA`. -/
theorem prepare_timing_parameters_TA_derivation (cfg : WorkflowConfig)
    (md : Metadata) (h : 1 < (md.SliceTiming.getD []).length) :
    (∀ TR : ℚ, md.RepetitionTime = some TR →
      np_isclose TR (TA_of (md.SliceTiming.getD [])) = false →
      TA_of (md.SliceTiming.getD []) < TR →
      (prepare_timing_parameters cfg md).DelayTime =
        some (TR - TA_of (md.SliceTiming.getD []))) ∧
    (md.RepetitionTime = none → ∀ vt, md.VolumeTiming = some vt →
      (prepare_timing_parameters cfg md).AcquisitionDuration =
        some (TA_of (md.SliceTiming.getD []))) := by
  constructor
  · intro TR htr hcl hlt
    by_cases hstc : "slicetiming" ∈ cfg.ignore
    · rw [prepare_long_nostc cfg md h hstc,
        derive_duration_delay _ _ TR (by simpa using htr) hcl hlt]
    · rw [prepare_long_stc cfg md h hstc]
      rw [derive_duration_delay _ _ TR (by simpa using htr) hcl hlt]
  · intro htr vt hvt
    by_cases hstc : "slicetiming" ∈ cfg.ignore
    · rw [prepare_long_nostc cfg md h hstc,
        derive_duration_acq _ _ vt (by simpa using htr) (by simpa using hvt)]
    · rw [prepare_long_stc cfg md h hstc]
      rw [derive_duration_acq _ _ vt (by simpa using htr) (by simpa using hvt)]

/-- Witness for C1 at the four-slice doctest fixture. -/
theorem prepare_timing_parameters_TA_derivation_witness :
    (prepare_timing_parameters ⟨[], 1 / 2⟩
      { RepetitionTime := some 2,
        SliceTiming := some [0, 1 / 5, 2 / 5, 3 / 5] }).DelayTime =
      some (2 - TA_of ((some [(0:ℚ), 1 / 5, 2 / 5, 3 / 5]).getD [])) := by
  exact (prepare_timing_parameters_TA_derivation ⟨[], 1 / 2⟩
      { RepetitionTime := some 2, SliceTiming := some [0, 1 / 5, 2 / 5, 3 / 5] }
      (by simp)).1 2 rfl
    (by norm_num [np_isclose, TA_of, sortedST, List.insertionSort,
      List.orderedInsert, abs_of_nonneg])
    (by norm_num [TA_of, sortedST, List.insertionSort, List.orderedInsert])

/-- C2: the output always carries `SliceTimingCorrected`, true exactly
when `SliceTiming` has more than one entry and `"slicetiming"` is not in
the skip set; with at most one entry no `DelayTime`,
`AcquisitionDuration` or `StartTime` is derived from `SliceTiming`. -/
theorem prepare_timing_parameters_stc_flag (cfg : WorkflowConfig)
    (md : Metadata) :
    ((prepare_timing_parameters cfg md).SliceTimingCorrected = true ↔
      (1 < (md.SliceTiming.getD []).length ∧ "slicetiming" ∉ cfg.ignore)) ∧
    ((md.SliceTiming.getD []).length ≤ 1 →
      (prepare_timing_parameters cfg md).DelayTime = md.DelayTime ∧
      (prepare_timing_parameters cfg md).AcquisitionDuration =
        md.AcquisitionDuration ∧
      (prepare_timing_parameters cfg md).StartTime = none) := by
  by_cases h : 1 < (md.SliceTiming.getD []).length
  · refine ⟨?_, fun hle => absurd h (by omega)⟩
    by_cases hstc : "slicetiming" ∈ cfg.ignore
    · rw [prepare_long_nostc cfg md h hstc]
      simp [derive_duration_STC, hstc]
    · rw [prepare_long_stc cfg md h hstc]
      simp [derive_duration_STC, hstc, h]
  · rw [prepare_short cfg md h]
    exact ⟨by simp [h], fun _ => ⟨rfl, rfl, rfl⟩⟩

/-- Witness for C2 at a single-entry `SliceTiming`. -/
theorem prepare_timing_parameters_stc_flag_witness :
    (prepare_timing_parameters ⟨[], 1 / 2⟩
      { RepetitionTime := some 2,
        SliceTiming := some [0] }).SliceTimingCorrected = false ∧
    (prepare_timing_parameters ⟨[], 1 / 2⟩
      { RepetitionTime := some 2, SliceTiming := some [0] }).StartTime =
      none := by
  have h := prepare_timing_parameters_stc_flag ⟨[], 1 / 2⟩
    { RepetitionTime := some 2, SliceTiming := some [0] }
  refine ⟨?_, (h.2 (by simp)).2.2⟩
  refine Bool.eq_false_iff.mpr fun hb => ?_
  have := h.1.mp hb
  simp at this

/-- C3: when slice-timing correction is applied, `StartTime` is set to
`np.round(min + frac * (max - min), 3)` over the `SliceTiming` values,
with `frac` the configured slice-time reference in `[0, 1]`; when it is
not applied, no `StartTime` appears. -/
theorem prepare_timing_parameters_StartTime (cfg : WorkflowConfig)
    (md : Metadata)
    (hfrac : 0 ≤ cfg.slice_time_ref ∧ cfg.slice_time_ref ≤ 1) :
    ((1 < (md.SliceTiming.getD []).length ∧ "slicetiming" ∉ cfg.ignore) →
      ∃ mn mx : ℚ,
        mn ∈ md.SliceTiming.getD [] ∧
        (∀ x ∈ md.SliceTiming.getD [], mn ≤ x) ∧
        mx ∈ md.SliceTiming.getD [] ∧
        (∀ x ∈ md.SliceTiming.getD [], x ≤ mx) ∧
        (prepare_timing_parameters cfg md).StartTime =
          some (np_round3 (mn + cfg.slice_time_ref * (mx - mn)))) ∧
    (¬(1 < (md.SliceTiming.getD []).length ∧ "slicetiming" ∉ cfg.ignore) →
      (prepare_timing_parameters cfg md).StartTime = none) := by
  constructor
  · rintro ⟨h, hstc⟩
    have hne : md.SliceTiming.getD [] ≠ [] := by
      intro he
      rw [he] at h
      simp at h
    obtain ⟨⟨hmn_mem, hmn_le⟩, hmx_mem, hmx_le⟩ := sortedST_min_max _ hne
    refine ⟨_, _, hmn_mem, hmn_le, hmx_mem, hmx_le, ?_⟩
    rw [prepare_long_stc cfg md h hstc]
    simp [tzero_of]
  · intro hn
    by_cases h : 1 < (md.SliceTiming.getD []).length
    · have hstc : "slicetiming" ∈ cfg.ignore := by
        by_contra hc
        exact hn ⟨h, hc⟩
      rw [prepare_long_nostc cfg md h hstc]
      simp [derive_duration_StartTime]
    · rw [prepare_short cfg md h]

/-- Witness for C3 at the four-slice doctest fixture. -/
theorem prepare_timing_parameters_StartTime_witness :
    ∃ mn mx : ℚ,
      mn ∈ [(0:ℚ), 1 / 5, 2 / 5, 3 / 5] ∧
      (∀ x ∈ [(0:ℚ), 1 / 5, 2 / 5, 3 / 5], mn ≤ x) ∧
      mx ∈ [(0:ℚ), 1 / 5, 2 / 5, 3 / 5] ∧
      (∀ x ∈ [(0:ℚ), 1 / 5, 2 / 5, 3 / 5], x ≤ mx) ∧
      (prepare_timing_parameters ⟨[], 1 / 2⟩
        { RepetitionTime := some 2,
          SliceTiming := some [0, 1 / 5, 2 / 5, 3 / 5] }).StartTime =
        some (np_round3 (mn + (1 / 2) * (mx - mn))) := by
  have h := (prepare_timing_parameters_StartTime ⟨[], 1 / 2⟩
    { RepetitionTime := some 2, SliceTiming := some [0, 1 / 5, 2 / 5, 3 / 5] }
    ⟨by norm_num, by norm_num⟩).1 ⟨by simp, by simp⟩
  simpa using h

/-- C9: at most one of `DelayTime` and `AcquisitionDuration` is newly
derived in a single call; in particular, when `RepetitionTime` is
present, `AcquisitionDuration` is never added even if `VolumeTiming` is
also present. -/
theorem at_most_one_duration_derived (cfg : WorkflowConfig) (md : Metadata) :
    (md.RepetitionTime.isSome = true →
      (prepare_timing_parameters cfg md).AcquisitionDuration =
        md.AcquisitionDuration) ∧
    ((prepare_timing_parameters cfg md).DelayTime ≠ md.DelayTime →
      (prepare_timing_parameters cfg md).AcquisitionDuration =
        md.AcquisitionDuration) ∧
    ((prepare_timing_parameters cfg md).AcquisitionDuration ≠
        md.AcquisitionDuration →
      (prepare_timing_parameters cfg md).DelayTime = md.DelayTime) := by
  by_cases h : 1 < (md.SliceTiming.getD []).length
  · by_cases hstc : "slicetiming" ∈ cfg.ignore
    · rw [prepare_long_nostc cfg md h hstc]
      have hx := derive_duration_excl (TA_of (md.SliceTiming.getD []))
        { RepetitionTime := md.RepetitionTime, VolumeTiming := md.VolumeTiming,
          DelayTime := md.DelayTime,
          AcquisitionDuration := md.AcquisitionDuration,
          SliceTiming := none, SliceTimingCorrected := false,
          StartTime := none }
      simpa using hx
    · rw [prepare_long_stc cfg md h hstc]
      have hx := derive_duration_excl (TA_of (md.SliceTiming.getD []))
        { RepetitionTime := md.RepetitionTime, VolumeTiming := md.VolumeTiming,
          DelayTime := md.DelayTime,
          AcquisitionDuration := md.AcquisitionDuration,
          SliceTiming := none, SliceTimingCorrected := true,
          StartTime := none }
      simpa using hx
  · rw [prepare_short cfg md h]
    exact ⟨fun _ => rfl, fun hd => absurd rfl hd, fun ha => absurd rfl ha⟩

/-- Witness for C9: `RepetitionTime` and `VolumeTiming` both present. -/
theorem at_most_one_duration_derived_witness :
    (prepare_timing_parameters ⟨[], 1 / 2⟩
      { RepetitionTime := some 2, VolumeTiming := some [0, 2, 9],
        SliceTiming := some [0, 1 / 5, 2 / 5, 3 / 5] }).AcquisitionDuration =
      none := by
  exact (at_most_one_duration_derived ⟨[], 1 / 2⟩
    { RepetitionTime := some 2, VolumeTiming := some [0, 2, 9],
      SliceTiming := some [0, 1 / 5, 2 / 5, 3 / 5] }).1 rfl

/-- C4 counterexample: an input `DelayTime` of `0.7` together with a
usable `SliceTiming` is overwritten with the derived value `1.2`, so
`DelayTime` is not copied through unchanged. -/
theorem timing_passthrough_counterexample :
    (prepare_timing_parameters ⟨[], 1 / 2⟩
        { RepetitionTime := some 2, DelayTime := some (7 / 10),
          SliceTiming := some [0, 1 / 5, 2 / 5, 3 / 5] }).DelayTime =
      some (6 / 5) ∧
    ¬ (prepare_timing_parameters ⟨[], 1 / 2⟩
        { RepetitionTime := some 2, DelayTime := some (7 / 10),
          SliceTiming := some [0, 1 / 5, 2 / 5, 3 / 5] }).DelayTime =
      some (7 / 10) := by
  constructor <;>
    norm_num [prepare_timing_parameters, derive_duration, TA_of, tzero_of,
      sortedST, np_isclose, np_round3, roundHalfEven, List.insertionSort,
      List.orderedInsert, abs_of_nonneg, abs_of_nonpos]

/-- C4 (amended): `RepetitionTime` and `VolumeTiming` are always copied
through unchanged and `SliceTiming` never appears in the output;
`DelayTime` and `AcquisitionDuration` are copied through unchanged
whenever `SliceTiming` has at most one entry, while with more than one
entry each is either copied through unchanged or overwritten by the
derivation (`DelayTime = TR - TA` when `RepetitionTime` is present,
`AcquisitionDuration = TA` when it is absent). -/
theorem timing_passthrough_amended (cfg : WorkflowConfig) (md : Metadata) :
    (prepare_timing_parameters cfg md).RepetitionTime = md.RepetitionTime ∧
    (prepare_timing_parameters cfg md).VolumeTiming = md.VolumeTiming ∧
    (prepare_timing_parameters cfg md).SliceTiming = none ∧
    ((md.SliceTiming.getD []).length ≤ 1 →
      (prepare_timing_parameters cfg md).DelayTime = md.DelayTime ∧
      (prepare_timing_parameters cfg md).AcquisitionDuration =
        md.AcquisitionDuration) ∧
    (1 < (md.SliceTiming.getD []).length →
      ((prepare_timing_parameters cfg md).DelayTime = md.DelayTime ∨
        ∃ TR, md.RepetitionTime = some TR ∧
          (prepare_timing_parameters cfg md).DelayTime =
            some (TR - TA_of (md.SliceTiming.getD []))) ∧
      ((prepare_timing_parameters cfg md).AcquisitionDuration =
          md.AcquisitionDuration ∨
        (md.RepetitionTime = none ∧
          (prepare_timing_parameters cfg md).AcquisitionDuration =
            some (TA_of (md.SliceTiming.getD []))))) := by
  by_cases h : 1 < (md.SliceTiming.getD []).length
  · by_cases hstc : "slicetiming" ∈ cfg.ignore
    · rw [prepare_long_nostc cfg md h hstc]
      have hx := derive_duration_outcomes (TA_of (md.SliceTiming.getD []))
        { RepetitionTime := md.RepetitionTime, VolumeTiming := md.VolumeTiming,
          DelayTime := md.DelayTime,
          AcquisitionDuration := md.AcquisitionDuration,
          SliceTiming := none, SliceTimingCorrected := false,
          StartTime := none }
      refine ⟨by simp [derive_duration_RT], by simp [derive_duration_VT],
        by simp [derive_duration_ST], fun hle => absurd h (by omega),
        fun _ => ?_⟩
      simpa using hx
    · rw [prepare_long_stc cfg md h hstc]
      have hx := derive_duration_outcomes (TA_of (md.SliceTiming.getD []))
        { RepetitionTime := md.RepetitionTime, VolumeTiming := md.VolumeTiming,
          DelayTime := md.DelayTime,
          AcquisitionDuration := md.AcquisitionDuration,
          SliceTiming := none, SliceTimingCorrected := true,
          StartTime := none }
      refine ⟨by simp [derive_duration_RT], by simp [derive_duration_VT],
        by simp [derive_duration_ST], fun hle => absurd h (by omega),
        fun _ => ?_⟩
      simpa using hx
  · rw [prepare_short cfg md h]
    exact ⟨rfl, rfl, rfl, fun _ => ⟨rfl, rfl⟩, fun hg => absurd hg h⟩

/-- Witness for the amended C4 at the overwrite fixture. -/
theorem timing_passthrough_amended_witness :
    (prepare_timing_parameters ⟨[], 1 / 2⟩
      { RepetitionTime := some 2, DelayTime := some (7 / 10),
        SliceTiming := some [0, 1 / 5, 2 / 5, 3 / 5] }).RepetitionTime =
      some 2 ∧
    ((prepare_timing_parameters ⟨[], 1 / 2⟩
        { RepetitionTime := some 2, DelayTime := some (7 / 10),
          SliceTiming := some [0, 1 / 5, 2 / 5, 3 / 5] }).DelayTime =
        some (7 / 10) ∨
      ∃ TR, (some (2:ℚ)) = some TR ∧
        (prepare_timing_parameters ⟨[], 1 / 2⟩
          { RepetitionTime := some 2, DelayTime := some (7 / 10),
            SliceTiming := some [0, 1 / 5, 2 / 5, 3 / 5] }).DelayTime =
          some (TR - TA_of ((some [(0:ℚ), 1 / 5, 2 / 5, 3 / 5]).getD []))) := by
  have h := timing_passthrough_amended ⟨[], 1 / 2⟩
    { RepetitionTime := some 2, DelayTime := some (7 / 10),
      SliceTiming := some [0, 1 / 5, 2 / 5, 3 / 5] }
  exact ⟨h.1, (h.2.2.2.2 (by simp)).1⟩

/-- C5 counterexample: with `SliceTiming: []` and slice-timing
correction explicitly skipped, no `DelayTime` is derived, contradicting
the claim's second part. -/
theorem empty_sliceTiming_skip_counterexample :
    (prepare_timing_parameters ⟨["slicetiming"], 1 / 2⟩
        { RepetitionTime := some 2, SliceTiming := some [] }).DelayTime =
      none := by
  norm_num [prepare_timing_parameters, derive_duration, TA_of, tzero_of,
    sortedST, np_isclose, np_round3, roundHalfEven, List.insertionSort,
    List.orderedInsert, abs_of_nonneg, abs_of_nonpos]

/-- C5 (amended): `{RepetitionTime: 2, SliceTiming: []}` returns exactly
`{RepetitionTime: 2, SliceTimingCorrected: false}` both when correction
is enabled and when it is explicitly skipped (empty `SliceTiming` is
treated as absent, so nothing is derived); the "DelayTime still
derived" behaviour belongs to a multi-entry `SliceTiming` such as
`[0, 0.2, 0.4, 0.6]`, where the skipped run still derives
`DelayTime = 1.2` with no `StartTime`. -/
theorem empty_sliceTiming_fixture :
    prepare_timing_parameters ⟨[], 1 / 2⟩
        { RepetitionTime := some 2, SliceTiming := some [] } =
      { RepetitionTime := some 2, SliceTimingCorrected := false } ∧
    prepare_timing_parameters ⟨["slicetiming"], 1 / 2⟩
        { RepetitionTime := some 2, SliceTiming := some [] } =
      { RepetitionTime := some 2, SliceTimingCorrected := false } ∧
    prepare_timing_parameters ⟨["slicetiming"], 1 / 2⟩
        { RepetitionTime := some 2,
          SliceTiming := some [0, 1 / 5, 2 / 5, 3 / 5] } =
      { RepetitionTime := some 2, SliceTimingCorrected := false,
        DelayTime := some (6 / 5) } := by
  refine ⟨?_, ?_, ?_⟩ <;>
    norm_num [prepare_timing_parameters, derive_duration, TA_of, tzero_of,
      sortedST, np_isclose, np_round3, roundHalfEven, List.insertionSort,
      List.orderedInsert, abs_of_nonneg, abs_of_nonpos,
      TimingParameters.mk.injEq]

/-! ## Workflow graphs

The `init_*_wf` constructors build `nipype` workflows: named nodes
connected port-to-port by `workflow.connect` calls.  The embedding
keeps, for each constructor, the node names and the list of connections
as a function of its build-time feature flags.  Arguments that only
configure node interfaces (directories, memory hints, metadata) do not
affect the topology and are omitted. -/

/-- One `workflow.connect` entry:
`(srcNode, srcPort) -> (dstNode, dstPort)`. -/
structure Edge where
  srcNode : String
  srcPort : String
  dstNode : String
  dstPort : String
deriving DecidableEq

/-- A workflow graph: node names plus connections. -/
structure Graph where
  nodes : List String
  edges : List Edge
deriving DecidableEq

/-- One source tuple `(src, dst, [(srcPort, dstPort), ...])` flattened
into edges. -/
def conn (src : String) (dst : String) (ports : List (String × String)) :
    List Edge :=
  ports.map fun p => { srcNode := src, srcPort := p.1, dstNode := dst, dstPort := p.2 }

/-- Position of a node in an ordering. -/
def nodePos (ord : List String) (n : String) : Option Nat :=
  ord.findIdx? fun m => m == n

/-- An edge respects an ordering when its source strictly precedes its
destination. -/
def edgeBefore (ord : List String) (e : Edge) : Bool :=
  match nodePos ord e.srcNode, nodePos ord e.dstNode with
  | some i, some j => decide (i < j)
  | _, _ => false

/-- The graph's own node list is duplicate-free and already
topologically ordered. -/
def topoOrderedB (g : Graph) : Bool :=
  decide g.nodes.Nodup && g.edges.all (edgeBefore g.nodes)

/-- `ord` is a topological order of `g`. -/
def IsTopoOrder (g : Graph) (ord : List String) : Prop :=
  List.Perm ord g.nodes ∧ ord.Nodup ∧ ∀ e ∈ g.edges, edgeBefore ord e = true

/-- The graph admits a topological order (it is acyclic). -/
def HasTopoOrder (g : Graph) : Prop := ∃ ord, IsTopoOrder g ord

theorem hasTopoOrder_of_topoOrderedB (g : Graph)
    (h : topoOrderedB g = true) : HasTopoOrder g := by
  unfold topoOrderedB at h
  simp only [Bool.and_eq_true] at h
  obtain ⟨h1, h2⟩ := h
  exact ⟨g.nodes, List.Perm.refl _, of_decide_eq_true h1,
    fun e he => List.all_eq_true.mp h2 e he⟩

/-- The `(destination node, destination port)` pairs of all edges. -/
def targetPairs (g : Graph) : List (String × String) :=
  g.edges.map fun e => (e.dstNode, e.dstPort)

/-- No input port receives more than one connection. -/
def noDupTargets (g : Graph) : Bool :=
  decide (targetPairs g).Nodup

/-- Number of connections into one `(node, port)` input. -/
def inDegree (g : Graph) (n p : String) : Nat :=
  (g.edges.filter fun e => e.dstNode == n && e.dstPort == p).length

/-- All DAG invariants checked for one graph. -/
def GraphOk (g : Graph) : Prop :=
  HasTopoOrder g ∧ noDupTargets g = true

theorem graphOk_of_checks (g : Graph) (h1 : topoOrderedB g = true)
    (h2 : noDupTargets g = true) : GraphOk g :=
  ⟨hasTopoOrder_of_topoOrderedB g h1, h2⟩

/-! ### `init_func_fit_reports_wf` (outputs.py) -/

/-- Edges of the susceptibility-distortion-correction reportlet branch
(the `if sdc_correction:` block). -/
def sdc_report_edges : List Edge :=
  conn "inputnode" "fmapref_boldref"
    [("fmap_ref", "input_image"), ("coreg_boldref", "reference_image"),
      ("boldref2fmap_xfm", "transforms")] ++
  conn "inputnode" "sdecreg_report"
    [("sdc_boldref", "reference"), ("fieldmap", "fieldmap"),
      ("bold_mask", "mask")] ++
  conn "fmapref_boldref" "sdecreg_report" [("output_image", "moving")] ++
  conn "inputnode" "ds_sdcreg_report" [("source_file", "source_file")] ++
  conn "sdecreg_report" "ds_sdcreg_report" [("out_report", "in_file")] ++
  conn "inputnode" "sdc_report"
    [("sdc_boldref", "before"), ("coreg_boldref", "after")] ++
  conn "boldref_wm" "sdc_report" [("output_image", "wm_seg")] ++
  conn "inputnode" "ds_sdc_report" [("source_file", "source_file")] ++
  conn "sdc_report" "ds_sdc_report" [("out_report", "in_file")]

/-- Nodes of the SDC reportlet branch. -/
def sdc_report_nodes : List String :=
  ["fmapref_boldref", "sdecreg_report", "ds_sdcreg_report", "sdc_report",
    "ds_sdc_report"]

/-- Graph of `init_func_fit_reports_wf(sdc_correction, freesurfer, ...)`
(the `freesurfer` argument does not alter the built graph). -/
def init_func_fit_reports_wf (sdc_correction : Bool) (freesurfer : Bool) :
    Graph :=
  let _ := freesurfer
  { nodes :=
      ["inputnode", "ds_report_summary", "ds_report_validation",
        "t1w_boldref", "t1w_wm", "boldref_wm"] ++
      (if sdc_correction then sdc_report_nodes else []) ++
      ["epi_t1_report", "ds_epi_t1_report"]
    edges :=
      conn "inputnode" "ds_report_summary"
        [("source_file", "source_file"), ("summary_report", "in_file")] ++
      conn "inputnode" "ds_report_validation"
        [("source_file", "source_file"), ("validation_report", "in_file")] ++
      conn "inputnode" "t1w_boldref"
        [("t1w_preproc", "input_image"), ("coreg_boldref", "reference_image"),
          ("boldref2anat_xfm", "transforms")] ++
      conn "inputnode" "t1w_wm" [("t1w_dseg", "in_seg")] ++
      conn "inputnode" "boldref_wm"
        [("coreg_boldref", "reference_image"),
          ("boldref2anat_xfm", "transforms")] ++
      conn "t1w_wm" "boldref_wm" [("out", "input_image")] ++
      (if sdc_correction then sdc_report_edges else []) ++
      conn "inputnode" "epi_t1_report" [("coreg_boldref", "after")] ++
      conn "t1w_boldref" "epi_t1_report" [("output_image", "before")] ++
      conn "boldref_wm" "epi_t1_report" [("output_image", "wm_seg")] ++
      conn "inputnode" "ds_epi_t1_report" [("source_file", "source_file")] ++
      conn "epi_t1_report" "ds_epi_t1_report" [("out_report", "in_file")] }

example : topoOrderedB (init_func_fit_reports_wf true false) = true := by decide
example : noDupTargets (init_func_fit_reports_wf true false) = true := by decide

/-! ### `init_ds_boldref_wf`, `init_ds_registration_wf`, `init_ds_hmc_wf`
(outputs.py) -/

/-- Graph of `init_ds_boldref_wf(...)` (no feature flags). -/
def init_ds_boldref_wf : Graph :=
  { nodes := ["inputnode", "raw_sources", "ds_boldref", "outputnode"]
    edges :=
      conn "inputnode" "raw_sources" [("source_files", "in_files")] ++
      conn "inputnode" "ds_boldref"
        [("boldref", "in_file"), ("source_files", "source_file")] ++
      conn "raw_sources" "ds_boldref" [("out", "RawSources")] ++
      conn "ds_boldref" "outputnode" [("out_file", "boldref")] }

/-- Graph of `init_ds_registration_wf(...)` (no feature flags). -/
def init_ds_registration_wf : Graph :=
  { nodes := ["inputnode", "raw_sources", "ds_xform", "outputnode"]
    edges :=
      conn "inputnode" "raw_sources" [("source_files", "in_files")] ++
      conn "inputnode" "ds_xform"
        [("xform", "in_file"), ("source_files", "source_file")] ++
      conn "raw_sources" "ds_xform" [("out", "RawSources")] ++
      conn "ds_xform" "outputnode" [("out_file", "xform")] }

/-- Graph of `init_ds_hmc_wf(...)` (no feature flags). -/
def init_ds_hmc_wf : Graph :=
  { nodes := ["inputnode", "raw_sources", "ds_xforms", "outputnode"]
    edges :=
      conn "inputnode" "raw_sources" [("source_files", "in_files")] ++
      conn "inputnode" "ds_xforms"
        [("xforms", "in_file"), ("source_files", "source_file")] ++
      conn "raw_sources" "ds_xforms" [("out", "RawSources")] ++
      conn "ds_xforms" "outputnode" [("out_file", "xforms")] }

/-! ### `init_ds_bold_native_wf` (outputs.py) -/

/-- Graph of
`init_ds_bold_native_wf(multiecho, bold_output, echo_output, ...)`. -/
def init_ds_bold_native_wf (multiecho bold_output echo_output : Bool) :
    Graph :=
  { nodes :=
      ["inputnode", "raw_sources", "ds_bold_mask"] ++
      (if bold_output then ["ds_bold"] else []) ++
      (if bold_output && multiecho then ["ds_t2star_bold"] else []) ++
      (if echo_output then ["ds_bold_echos"] else [])
    edges :=
      conn "inputnode" "raw_sources" [("source_files", "in_files")] ++
      conn "inputnode" "ds_bold_mask"
        [("source_files", "source_file"), ("bold_mask", "in_file")] ++
      conn "raw_sources" "ds_bold_mask" [("out", "RawSources")] ++
      (if bold_output then
        conn "inputnode" "ds_bold"
          [("source_files", "source_file"), ("bold", "in_file")]
      else []) ++
      (if bold_output && multiecho then
        conn "inputnode" "ds_t2star_bold"
          [("source_files", "source_file"), ("t2star", "in_file")] ++
        conn "raw_sources" "ds_t2star_bold" [("out", "RawSources")]
      else []) ++
      (if echo_output then
        conn "inputnode" "ds_bold_echos"
          [("source_files", "source_file"), ("bold_echos", "in_file")]
      else []) }

/-! ### `init_ds_volumes_wf` (outputs.py) -/

/-- Graph of `init_ds_volumes_wf(multiecho, ...)`.  The source keeps
parallel `resamplers`/`datasinks` lists, extended in the multiecho
branch, and wires them with list comprehensions and a `zip`. -/
def init_ds_volumes_wf (multiecho : Bool) : Graph :=
  let resamplers :=
    ["resample_ref", "resample_mask"] ++
      (if multiecho then ["resample_t2star"] else [])
  let datasinks :=
    ["ds_ref", "ds_mask"] ++ (if multiecho then ["ds_t2star_std"] else [])
  { nodes :=
      ["inputnode", "raw_sources", "boldref2target", "ds_bold"] ++
      resamplers ++ datasinks
    edges :=
      conn "inputnode" "raw_sources" [("source_files", "in_files")] ++
      conn "inputnode" "boldref2target"
        [("boldref2anat_xfm", "in1"), ("anat2std_xfm", "in2")] ++
      conn "inputnode" "ds_bold"
        [("source_files", "source_file"), ("bold", "in_file"),
          ("space", "space"), ("cohort", "cohort"),
          ("resolution", "resolution")] ++
      conn "inputnode" "resample_ref" [("bold_ref", "input_image")] ++
      conn "inputnode" "resample_mask" [("bold_mask", "input_image")] ++
      (if multiecho then
        conn "inputnode" "resample_t2star" [("t2star", "input_image")]
      else []) ++
      (resamplers.map fun r =>
        conn "inputnode" r [("ref_file", "reference_image")]).flatten ++
      (resamplers.map fun r =>
        conn "boldref2target" r [("out", "transforms")]).flatten ++
      (datasinks.map fun d =>
        conn "inputnode" d
          [("source_files", "source_file"), ("space", "space"),
            ("cohort", "cohort"), ("resolution", "resolution")]).flatten ++
      ((resamplers.zip datasinks).map fun p =>
        conn p.1 p.2 [("output_image", "in_file")]).flatten }

/-! ### `init_bold_preproc_report_wf` (outputs.py) -/

/-- Graph of `init_bold_preproc_report_wf(...)` (no feature flags). -/
def init_bold_preproc_report_wf : Graph :=
  { nodes := ["inputnode", "pre_tsnr", "pos_tsnr", "bold_rpt",
      "ds_report_bold"]
    edges :=
      conn "inputnode" "ds_report_bold" [("name_source", "source_file")] ++
      conn "inputnode" "pre_tsnr" [("in_pre", "in_file")] ++
      conn "inputnode" "pos_tsnr" [("in_post", "in_file")] ++
      conn "pre_tsnr" "bold_rpt" [("stddev_file", "before")] ++
      conn "pos_tsnr" "bold_rpt" [("stddev_file", "after")] ++
      conn "bold_rpt" "ds_report_bold" [("out_report", "in_file")] }

/-! ### `init_bold_surf_wf` (resampling.py) -/

/-- Edges of the `if medial_surface_nan:` branch of
`init_bold_surf_wf`. -/
def medial_nans_edges : List Edge :=
  conn "inputnode" "medial_nans" [("subjects_dir", "subjects_dir")] ++
  conn "sampler" "medial_nans" [("out_file", "in_file")] ++
  conn "medial_nans" "update_metadata" [("out_file", "in_file")]

/-- The single edge of the `else:` branch of `init_bold_surf_wf`. -/
def sampler_direct_edges : List Edge :=
  conn "sampler" "update_metadata" [("out_file", "in_file")]

/-- Graph of `init_bold_surf_wf(..., medial_surface_nan, ...)`. -/
def init_bold_surf_wf (medial_surface_nan : Bool) : Graph :=
  { nodes :=
      ["inputnode", "itersource", "get_fsnative", "targets", "itk2lta",
        "sampler"] ++
      (if medial_surface_nan then ["medial_nans"] else []) ++
      ["update_metadata", "ds_bold_surfs"]
    edges :=
      conn "inputnode" "get_fsnative"
        [("subject_id", "subject_id"), ("subjects_dir", "subjects_dir")] ++
      conn "inputnode" "targets" [("subject_id", "subject_id")] ++
      conn "inputnode" "itk2lta"
        [("bold_t1w", "moving"), ("fsnative2t1w_xfm", "in_xfms")] ++
      conn "get_fsnative" "itk2lta" [("T1", "reference")] ++
      conn "inputnode" "sampler"
        [("subjects_dir", "subjects_dir"), ("subject_id", "subject_id"),
          ("bold_t1w", "source_file")] ++
      conn "itersource" "targets" [("target", "space")] ++
      conn "itk2lta" "sampler" [("out_inv", "reg_file")] ++
      conn "targets" "sampler" [("out", "target_subject")] ++
      conn "inputnode" "ds_bold_surfs" [("source_file", "source_file")] ++
      conn "itersource" "ds_bold_surfs" [("target", "space")] ++
      conn "update_metadata" "ds_bold_surfs" [("out_file", "in_file")] ++
      (if medial_surface_nan then medial_nans_edges
        else sampler_direct_edges) }

/-! ### `init_goodvoxels_bold_mask_wf` (resampling.py) -/

/-- Graph of `init_goodvoxels_bold_mask_wf(...)` (no feature flags). -/
def init_goodvoxels_bold_mask_wf : Graph :=
  { nodes :=
      ["inputnode", "stdev_volume", "mean_volume", "ribbon_boldsrc_xfm",
        "cov_volume", "cov_ribbon", "cov_ribbon_mean", "cov_ribbon_std",
        "cov_ribbon_norm", "smooth_norm", "merge_smooth_norm",
        "cov_ribbon_norm_smooth", "cov_norm", "cov_norm_modulate",
        "cov_norm_modulate_ribbon", "mod_ribbon_mean", "mod_ribbon_std",
        "merge_mod_ribbon_stats", "upper_thr_val", "lower_thr_val",
        "bin_mean_volume", "goodvoxels_thr", "merge_goodvoxels_operands",
        "goodvoxels_mask", "goodvoxels_ribbon_mask", "outputnode"]
    edges :=
      conn "inputnode" "ribbon_boldsrc_xfm" [("anat_ribbon", "input_image")] ++
      conn "inputnode" "stdev_volume" [("bold_file", "in_file")] ++
      conn "inputnode" "mean_volume" [("bold_file", "in_file")] ++
      conn "mean_volume" "ribbon_boldsrc_xfm"
        [("out_file", "reference_image")] ++
      conn "stdev_volume" "cov_volume" [("out_file", "in_file")] ++
      conn "mean_volume" "cov_volume" [("out_file", "operand_file")] ++
      conn "cov_volume" "cov_ribbon" [("out_file", "in_file")] ++
      conn "ribbon_boldsrc_xfm" "cov_ribbon" [("output_image", "mask_file")] ++
      conn "cov_ribbon" "cov_ribbon_mean" [("out_file", "in_file")] ++
      conn "cov_ribbon" "cov_ribbon_std" [("out_file", "in_file")] ++
      conn "cov_ribbon" "cov_ribbon_norm" [("out_file", "in_file")] ++
      conn "cov_ribbon_mean" "cov_ribbon_norm"
        [("out_stat", "operand_value")] ++
      conn "cov_ribbon_norm" "smooth_norm" [("out_file", "in_file")] ++
      conn "smooth_norm" "merge_smooth_norm" [("out_file", "in1")] ++
      conn "cov_ribbon_norm" "cov_ribbon_norm_smooth"
        [("out_file", "in_file")] ++
      conn "merge_smooth_norm" "cov_ribbon_norm_smooth"
        [("out", "operand_files")] ++
      conn "cov_ribbon_mean" "cov_norm" [("out_stat", "operand_value")] ++
      conn "cov_volume" "cov_norm" [("out_file", "in_file")] ++
      conn "cov_norm" "cov_norm_modulate" [("out_file", "in_file")] ++
      conn "cov_ribbon_norm_smooth" "cov_norm_modulate"
        [("out_file", "operand_file")] ++
      conn "cov_norm_modulate" "cov_norm_modulate_ribbon"
        [("out_file", "in_file")] ++
      conn "ribbon_boldsrc_xfm" "cov_norm_modulate_ribbon"
        [("output_image", "mask_file")] ++
      conn "cov_norm_modulate_ribbon" "mod_ribbon_mean"
        [("out_file", "in_file")] ++
      conn "cov_norm_modulate_ribbon" "mod_ribbon_std"
        [("out_file", "in_file")] ++
      conn "mod_ribbon_mean" "merge_mod_ribbon_stats" [("out_stat", "in1")] ++
      conn "mod_ribbon_std" "merge_mod_ribbon_stats" [("out_stat", "in2")] ++
      conn "merge_mod_ribbon_stats" "upper_thr_val" [("out", "in_stats")] ++
      conn "merge_mod_ribbon_stats" "lower_thr_val" [("out", "in_stats")] ++
      conn "mean_volume" "bin_mean_volume" [("out_file", "in_file")] ++
      conn "upper_thr_val" "goodvoxels_thr" [("upper_thresh", "thresh")] ++
      conn "cov_norm_modulate" "goodvoxels_thr" [("out_file", "in_file")] ++
      conn "bin_mean_volume" "merge_goodvoxels_operands"
        [("out_file", "in1")] ++
      conn "goodvoxels_thr" "goodvoxels_mask" [("out_file", "in_file")] ++
      conn "merge_goodvoxels_operands" "goodvoxels_mask"
        [("out", "operand_files")] ++
      conn "goodvoxels_mask" "goodvoxels_ribbon_mask"
        [("out_file", "in_file")] ++
      conn "ribbon_boldsrc_xfm" "goodvoxels_ribbon_mask"
        [("output_image", "mask_file")] ++
      conn "goodvoxels_mask" "outputnode" [("out_file", "goodvoxels_mask")] ++
      conn "goodvoxels_ribbon_mask" "outputnode"
        [("out_file", "goodvoxels_ribbon")] }

/-! ### `init_bold_fsLR_resampling_wf` (resampling.py) -/

/-- Edges of the `if estimate_goodvoxels:` branch of
`init_bold_fsLR_resampling_wf`; the nested workflow appears as the
composite node `goodvoxels_bold_mask_wf` whose exposed ports are the
dotted `inputnode.*`/`outputnode.*` names used by the source. -/
def goodvoxels_branch_edges : List Edge :=
  conn "inputnode" "goodvoxels_bold_mask_wf"
    [("bold_file", "inputnode.bold_file"),
      ("anat_ribbon", "inputnode.anat_ribbon")] ++
  conn "goodvoxels_bold_mask_wf" "volume_to_surface"
    [("outputnode.goodvoxels_mask", "volume_roi")] ++
  conn "goodvoxels_bold_mask_wf" "outputnode"
    [("outputnode.goodvoxels_mask", "goodvoxels_mask")]

/-- Graph of `init_bold_fsLR_resampling_wf(..., estimate_goodvoxels, ...)`. -/
def init_bold_fsLR_resampling_wf (estimate_goodvoxels : Bool) : Graph :=
  { nodes :=
      ["inputnode", "hemisource", "select_surfaces"] ++
      (if estimate_goodvoxels then ["goodvoxels_bold_mask_wf"] else []) ++
      ["volume_to_surface", "metric_dilate", "mask_native",
        "resample_to_fsLR", "mask_fsLR", "joinnode", "outputnode"]
    edges :=
      conn "inputnode" "select_surfaces"
        [("white", "white"), ("pial", "pial"),
          ("midthickness", "midthickness"),
          ("midthickness_fsLR", "midthickness_fsLR"),
          ("sphere_reg_fsLR", "sphere_reg_fsLR"),
          ("cortex_mask", "cortex_mask")] ++
      conn "hemisource" "select_surfaces" [("hemi", "key")] ++
      conn "inputnode" "volume_to_surface" [("bold_file", "volume_file")] ++
      conn "select_surfaces" "volume_to_surface"
        [("midthickness", "surface_file"), ("white", "inner_surface"),
          ("pial", "outer_surface")] ++
      conn "select_surfaces" "metric_dilate" [("midthickness", "surf_file")] ++
      conn "select_surfaces" "mask_native" [("cortex_mask", "mask")] ++
      conn "volume_to_surface" "metric_dilate" [("out_file", "in_file")] ++
      conn "metric_dilate" "mask_native" [("out_file", "in_file")] ++
      conn "select_surfaces" "resample_to_fsLR"
        [("sphere_reg_fsLR", "current_sphere"),
          ("template_sphere", "new_sphere"),
          ("midthickness", "current_area"),
          ("midthickness_fsLR", "new_area"),
          ("cortex_mask", "roi_metric")] ++
      conn "mask_native" "resample_to_fsLR" [("out_file", "in_file")] ++
      conn "select_surfaces" "mask_fsLR" [("template_roi", "mask")] ++
      conn "resample_to_fsLR" "mask_fsLR" [("out_file", "in_file")] ++
      conn "mask_fsLR" "joinnode" [("out_file", "bold_fsLR")] ++
      conn "joinnode" "outputnode" [("bold_fsLR", "bold_fsLR")] ++
      (if estimate_goodvoxels then goodvoxels_branch_edges else []) }

/-! ### `init_bold_grayords_wf` (resampling.py) -/

/-- Graph of `init_bold_grayords_wf(...)` (no feature flags). -/
def init_bold_grayords_wf : Graph :=
  { nodes := ["inputnode", "gen_cifti", "outputnode"]
    edges :=
      conn "inputnode" "gen_cifti"
        [("bold_fsLR", "surface_bolds"), ("bold_std", "bold_file")] ++
      conn "gen_cifti" "outputnode"
        [("out_file", "cifti_bold"), ("out_metadata", "cifti_metadata")] }

/-! ## Claim theorems for the workflow graphs -/

/-- C6: for every combination of build-time feature flags, every
workflow graph produced by the constructors in `outputs.py` and
`resampling.py` admits a topological order (is acyclic) and no two
connections target the same `(node, input port)` pair; in particular,
in `init_bold_surf_wf` the `update_metadata` node's `in_file` port
receives exactly one incoming connection in either branch of
`medial_surface_nan`. -/
theorem workflow_graphs_ok (sdc_correction freesurfer medial_surface_nan
    estimate_goodvoxels multiecho bold_output echo_output : Bool) :
    GraphOk (init_func_fit_reports_wf sdc_correction freesurfer) ∧
    GraphOk init_ds_boldref_wf ∧
    GraphOk init_ds_registration_wf ∧
    GraphOk init_ds_hmc_wf ∧
    GraphOk (init_ds_bold_native_wf multiecho bold_output echo_output) ∧
    GraphOk (init_ds_volumes_wf multiecho) ∧
    GraphOk init_bold_preproc_report_wf ∧
    GraphOk (init_bold_surf_wf medial_surface_nan) ∧
    GraphOk init_goodvoxels_bold_mask_wf ∧
    GraphOk (init_bold_fsLR_resampling_wf estimate_goodvoxels) ∧
    GraphOk init_bold_grayords_wf ∧
    inDegree (init_bold_surf_wf medial_surface_nan) "update_metadata"
      "in_file" = 1 := by
  refine ⟨?_, ?_, ?_, ?_, ?_, ?_, ?_, ?_, ?_, ?_, ?_, ?_⟩
  · cases sdc_correction <;> cases freesurfer <;>
      exact graphOk_of_checks _ (by decide) (by decide)
  · exact graphOk_of_checks _ (by decide) (by decide)
  · exact graphOk_of_checks _ (by decide) (by decide)
  · exact graphOk_of_checks _ (by decide) (by decide)
  · cases multiecho <;> cases bold_output <;> cases echo_output <;>
      exact graphOk_of_checks _ (by decide) (by decide)
  · cases multiecho <;> exact graphOk_of_checks _ (by decide) (by decide)
  · exact graphOk_of_checks _ (by decide) (by decide)
  · cases medial_surface_nan <;>
      exact graphOk_of_checks _ (by decide) (by decide)
  · exact graphOk_of_checks _ (by decide) (by decide)
  · cases estimate_goodvoxels <;>
      exact graphOk_of_checks _ (by decide) (by decide)
  · exact graphOk_of_checks _ (by decide) (by decide)
  · cases medial_surface_nan <;> decide

/-- The frame of a feature flag: outside the flag's associated nodes and
edges the two graphs are byte-identical, and inside them each graph holds
exactly its own branch's items. -/
abbrev FrameSplit (gTrue gFalse : Graph) (assocNodes : List String)
    (assocEdges : List Edge) (trueNodes falseNodes : List String)
    (trueEdges falseEdges : List Edge) : Prop :=
  gTrue.nodes.filter (fun n => !(assocNodes.contains n)) =
    gFalse.nodes.filter (fun n => !(assocNodes.contains n)) ∧
  gTrue.edges.filter (fun e => !(assocEdges.contains e)) =
    gFalse.edges.filter (fun e => !(assocEdges.contains e)) ∧
  gTrue.nodes.filter (fun n => assocNodes.contains n) = trueNodes ∧
  gFalse.nodes.filter (fun n => assocNodes.contains n) = falseNodes ∧
  gTrue.edges.filter (fun e => assocEdges.contains e) = trueEdges ∧
  gFalse.edges.filter (fun e => assocEdges.contains e) = falseEdges

/-- C7: toggling each feature flag (`sdc_correction` in
`init_func_fit_reports_wf`, `medial_surface_nan` in `init_bold_surf_wf`,
`estimate_goodvoxels` in `init_bold_fsLR_resampling_wf`) while holding
the other arguments fixed changes only the presence of the flag's
associated nodes and edges - the items of the `if`/`else` branches
guarded by the flag - and the remaining nodes and edges are
byte-identical between the two graphs. -/
theorem feature_flag_frame (freesurfer : Bool) :
    FrameSplit (init_func_fit_reports_wf true freesurfer)
      (init_func_fit_reports_wf false freesurfer)
      sdc_report_nodes sdc_report_edges
      sdc_report_nodes [] sdc_report_edges [] ∧
    FrameSplit (init_bold_surf_wf true) (init_bold_surf_wf false)
      ["medial_nans"] (medial_nans_edges ++ sampler_direct_edges)
      ["medial_nans"] [] medial_nans_edges sampler_direct_edges ∧
    FrameSplit (init_bold_fsLR_resampling_wf true)
      (init_bold_fsLR_resampling_wf false)
      ["goodvoxels_bold_mask_wf"] goodvoxels_branch_edges
      ["goodvoxels_bold_mask_wf"] [] goodvoxels_branch_edges [] := by
  cases freesurfer <;> exact ⟨by decide, by decide, by decide⟩

/-- C10: for every combination of `multiecho`, `bold_output` and
`echo_output`, the workflow of `init_ds_bold_native_wf` contains the
brain-mask datasink `ds_bold_mask` together with its connections from
`inputnode` and `raw_sources` - the mask derivative is emitted
unconditionally. -/
theorem ds_bold_native_mask_unconditional
    (multiecho bold_output echo_output : Bool) :
    "ds_bold_mask" ∈
      (init_ds_bold_native_wf multiecho bold_output echo_output).nodes ∧
    ({ srcNode := "inputnode", srcPort := "source_files",
        dstNode := "ds_bold_mask", dstPort := "source_file" } : Edge) ∈
      (init_ds_bold_native_wf multiecho bold_output echo_output).edges ∧
    ({ srcNode := "inputnode", srcPort := "bold_mask",
        dstNode := "ds_bold_mask", dstPort := "in_file" } : Edge) ∈
      (init_ds_bold_native_wf multiecho bold_output echo_output).edges ∧
    ({ srcNode := "raw_sources", srcPort := "out",
        dstNode := "ds_bold_mask", dstPort := "RawSources" } : Edge) ∈
      (init_ds_bold_native_wf multiecho bold_output echo_output).edges := by
  cases multiecho <;> cases bold_output <;> cases echo_output <;>
    exact ⟨by decide, by decide, by decide, by decide⟩

/-! ## Join aggregation over an iteration source

The join machinery executes inside the workflow engine, which is not
part of the two source files; the source only declares
`joinnode = pe.JoinNode(..., joinsource='hemisource')` against the
iteration source `hemisource` with `iterables=[('hemi', ['L', 'R'])]`
in `init_bold_fsLR_resampling_wf`.  Sections 3 and 5 of the
specification describe the engine's contract: the join's matching input
port receives the per-branch values as one ordered sequence, ordered
identically to the iterable sequence, never by completion order. -/

/-- The iterable sequence of the `hemisource` iteration source in
`init_bold_fsLR_resampling_wf`: `[('hemi', ['L', 'R'])]`. -/
def hemisource_iterables : List String := ["L", "R"]

/-- Modelled from the spec: the engine's join step.  At execution time
the replicas finish in an arbitrary order, handing the engine a list of
`(replica index, value)` pairs in completion order; the join node
re-assembles the values by replica index, producing the aggregated
sequence in iteration-source order (`none` if some replica is
missing). -/
def collectFrom (completed : List (Nat × α)) : Nat → Nat → Option (List α)
  | _, 0 => some []
  | i, k + 1 =>
    match completed.lookup i, collectFrom completed (i + 1) k with
    | some a, some l => some (a :: l)
    | _, _ => none

/-- Modelled from the spec: aggregate an `n`-way fan-out from the
completion-order list of `(replica index, value)` pairs. -/
def joinCollect (n : Nat) (completed : List (Nat × α)) : Option (List α) :=
  collectFrom completed 0 n

theorem lookup_of_mem_of_nodup {β : Type} (l : List (Nat × β))
    (hnd : (l.map Prod.fst).Nodup) (i : Nat) (b : β) (hmem : (i, b) ∈ l) :
    l.lookup i = some b := by
  induction l with
  | nil => cases hmem
  | cons p t ih =>
    rcases List.mem_cons.mp hmem with rfl | hmem2
    · simp [List.lookup]
    · rcases p with ⟨k, v⟩
      have hnd2 : (k :: List.map Prod.fst t).Nodup := by simpa using hnd
      have hk : k ∉ List.map Prod.fst t := (List.nodup_cons.mp hnd2).1
      have hne : (i == k) = false := by
        refine beq_eq_false_iff_ne.mpr fun he => ?_
        exact hk (he ▸ List.mem_map_of_mem Prod.fst hmem2)
      simp only [List.lookup, hne]
      exact ih (List.nodup_cons.mp hnd2).2 hmem2

theorem collectFrom_eq {β : Type} (completed : List (Nat × β)) :
    ∀ (suffix : List β) (start : Nat),
      (∀ j (hj : j < suffix.length),
        completed.lookup (start + j) = some (suffix.get ⟨j, hj⟩)) →
      collectFrom completed start suffix.length = some suffix := by
  intro suffix
  induction suffix with
  | nil => intro start _; rfl
  | cons a t ih =>
    intro start h
    have h0 : completed.lookup start = some a := by
      have := h 0 (by simp)
      simpa using this
    have ht : ∀ j (hj : j < t.length),
        completed.lookup (start + 1 + j) = some (t.get ⟨j, hj⟩) := by
      intro j hj
      have harith : start + 1 + j = start + (j + 1) := by omega
      rw [harith]
      have := h (j + 1) (by simpa using Nat.succ_lt_succ hj)
      simpa using this
    have hrec := ih (start + 1) ht
    simp only [List.length_cons, collectFrom, h0, hrec]

/-- C8: an `N`-way fan-out over an iteration source closed by a join
(such as `joinnode` over `hemisource` in
`init_bold_fsLR_resampling_wf`) aggregates into the sequence ordered by
the originating iterable, for every completion order of the replicas:
whenever the completed pairs are any permutation of the indexed
per-branch results, `joinCollect` returns exactly the results in
iterable order. -/
theorem join_preserves_iterable_order {ι β : Type} (iterable : List ι)
    (f : ι → β) (completed : List (Nat × β))
    (hperm : List.Perm completed (iterable.map f).enum) :
    joinCollect iterable.length completed = some (iterable.map f) := by
  have hkeys : (completed.map Prod.fst).Nodup := by
    have hp := hperm.map Prod.fst
    rw [List.enum_map_fst] at hp
    exact hp.nodup_iff.mpr (List.nodup_range _)
  have hlook : ∀ j (hj : j < (iterable.map f).length),
      completed.lookup (0 + j) = some ((iterable.map f).get ⟨j, hj⟩) := by
    intro j hj
    have hmem : (j, (iterable.map f).get ⟨j, hj⟩) ∈ (iterable.map f).enum := by
      have hjl : j < (iterable.map f).enum.length := by
        rw [List.enum_length]; exact hj
      have h1 : (iterable.map f).enum[j] = (j, (iterable.map f)[j]) :=
        List.getElem_enum (iterable.map f) j hjl
      have h2 : (j, (iterable.map f).get ⟨j, hj⟩) = (iterable.map f).enum[j] := by
        rw [h1, List.get_eq_getElem]
      rw [h2]
      exact List.getElem_mem hjl
    have hmem2 : (j, (iterable.map f).get ⟨j, hj⟩) ∈ completed :=
      hperm.mem_iff.mpr hmem
    rw [Nat.zero_add]
    exact lookup_of_mem_of_nodup completed hkeys j _ hmem2
  have := collectFrom_eq completed (iterable.map f) 0 hlook
  unfold joinCollect
  rw [← List.length_map iterable f]
  exact this

/-- Witness for C8: the two `hemisource` replicas complete out of
order (`R` first), yet the join aggregates in iterable order. -/
theorem join_preserves_iterable_order_witness :
    joinCollect hemisource_iterables.length [(1, "R"), (0, "L")] =
      some (hemisource_iterables.map id) := by
  exact join_preserves_iterable_order hemisource_iterables id
    [(1, "R"), (0, "L")] (by decide)
